import Mathlib

/-!
Shallow embedding of the Lumor photo-sharing backend's permission subsystem.

The relational store is modelled as a record of tables (lists of rows); each
SQL query in the source becomes the corresponding list traversal, keeping the
exact WHERE conditions and result shapes.  Functions are named after the
source symbols they embed:

* `areFriends`, `checkPhotoPermission` — src/src/validators/user.validators.js
  (utils/permission.utils.js section), `PermissionUtils`
* `getPhotoById` — src/unnamed/part_014, `PhotoService`
* `validateFriendships`, `createPermissionGroup`, `getPermissionGroupById` —
  src/unnamed/part_003 (`PermissionModel`) and
  src/src/services/permission.service.js (`PermissionService`)
* `getShareById`, `updateShare`, `getSharesByUser` — src/unnamed/part_002
  (`SharingModel`) and src/unnamed/part_015 (`SharingService`)
* friendship operations — src/src/models/friend.model.js (`FriendModel`) and
  src/unnamed/part_015 (`FriendService`)

Timestamps are integers; current-time comparisons take an explicit
`now : Int` parameter.  JavaScript `undefined`/`null` pulled out of dynamic
row objects is modelled with an explicit `JsVal` type where the source
accesses row fields by name (the sharing service does this).
-/

/-- A row of the `friendships` table: directed request edge with a status
string (`pending` / `accepted` / `declined` / `blocked`). -/
structure Friendship where
  id : Nat
  requesterId : Nat
  addresseeId : Nat
  status : String
deriving Repr, DecidableEq

/-- A row of the `access_permissions` table (the custom-group table read by
`PhotoModel.getCustomGroup` and `PermissionUtils.checkPhotoPermission`):
owner `userId` and a nullable integer-array column `allowed_user_ids`.
The `isActive` flag records the soft-delete state a group can be in; the
photo-permission query in the source selects rows by `id` and `user_id`
only and never mentions this flag. -/
structure AccessPermission where
  id : Nat
  userId : Nat
  allowedUserIds : Option (List Nat)
  isActive : Bool
deriving Repr, DecidableEq

/-- A row of the `permission_groups` table managed by `PermissionModel`
(soft-deleted via `is_active = false`). -/
structure PermissionGroup where
  id : Nat
  ownerId : Nat
  name : String
  description : String
  isActive : Bool
deriving Repr, DecidableEq

/-- A row of `permission_group_members`. -/
structure PermissionGroupMember where
  groupId : Nat
  userId : Nat
deriving Repr, DecidableEq

/-- A row of the `photos` table (the columns read on the access path). -/
structure Photo where
  id : Nat
  userId : Nat
  permissionType : String
  customGroupId : Option Nat
  isDeleted : Bool
deriving Repr, DecidableEq

/-- A row of the `albums` table (columns relevant to visibility). -/
structure Album where
  id : Nat
  userId : Nat
  isPublic : Bool
deriving Repr, DecidableEq

/-- A row of the `album_photos` containment table. -/
structure AlbumPhoto where
  albumId : Nat
  photoId : Nat
deriving Repr, DecidableEq

/-- A row of the `photo_shares` table: columns `shared_by`, `shared_with`,
`photo_id`, `album_id` (added by migration 009), `permission_level`,
`expires_at`, `is_active`. -/
structure PhotoShare where
  id : Nat
  sharedBy : Nat
  sharedWith : Nat
  photoId : Option Nat
  albumId : Option Nat
  permissionLevel : String
  expiresAt : Option Int
  isActive : Bool
deriving Repr, DecidableEq

/-- A row of the `album_shares` table. -/
structure AlbumShare where
  id : Nat
  sharedBy : Nat
  sharedWith : Nat
  albumId : Nat
  permissionLevel : String
  expiresAt : Option Int
  isActive : Bool
deriving Repr, DecidableEq

/-- The database state: one list per table, plus the SERIAL counters used
when inserting friendships and permission groups. -/
structure DB where
  users : List Nat
  friendships : List Friendship
  accessPermissions : List AccessPermission
  permissionGroups : List PermissionGroup
  permissionGroupMembers : List PermissionGroupMember
  photos : List Photo
  albums : List Album
  albumPhotos : List AlbumPhoto
  photoShares : List PhotoShare
  albumShares : List AlbumShare
  nextFriendshipId : Nat
  nextGroupId : Nat
deriving Repr, DecidableEq

/-- Result of `PermissionUtils.checkPhotoPermission`: a verdict plus a
reason string. -/
structure Decision where
  hasPermission : Bool
  reason : String
deriving Repr, DecidableEq

/-- `PermissionUtils.areFriends`: true iff some `friendships` row links the
two users in either direction with status `accepted`. -/
def areFriends (st : DB) (userId1 userId2 : Nat) : Bool :=
  st.friendships.any (fun f =>
    ((f.requesterId == userId1 && f.addresseeId == userId2) ||
     (f.requesterId == userId2 && f.addresseeId == userId1)) &&
    f.status == "accepted")

/-- `PermissionUtils.checkPhotoPermission`: self-access, then a switch on the
photo's `permission_type`.  The `custom` branch selects the
`access_permissions` row by `id` and `user_id` (owner) only and tests
membership of the caller in `allowed_user_ids` (null coalesced to the empty
list), exactly as the source query does. -/
def checkPhotoPermission (st : DB) (currentUserId photoOwnerId : Nat)
    (permissionType : String) (customGroupId : Option Nat) : Decision :=
  if currentUserId = photoOwnerId then
    ⟨true, "Owner access"⟩
  else if permissionType = "public" then
    ⟨true, "Public access"⟩
  else if permissionType = "friends" ∨ permissionType = "close_friends" then
    let isFriend := areFriends st currentUserId photoOwnerId
    ⟨isFriend, if isFriend then "Friend access" else "Not friends"⟩
  else if permissionType = "custom" then
    match customGroupId with
    | none => ⟨false, "Custom group ID required"⟩
    | some gid =>
      match st.accessPermissions.find? (fun r => r.id == gid && r.userId == photoOwnerId) with
      | none => ⟨false, "Custom group not found"⟩
      | some r =>
        let allowed := r.allowedUserIds.getD []
        let hasAccess := allowed.contains currentUserId
        ⟨hasAccess, if hasAccess then "Custom group access" else "Not in custom group"⟩
  else
    ⟨false, "Invalid permission type"⟩

/-- `PhotoService.getPhotoById`: look the photo up (`PhotoModel.findById`
filters out soft-deleted photos), then gate on `checkPhotoPermission`,
throwing `Access denied: <reason>` on a negative verdict.  The formatting
and file-URL generation that follow a positive verdict do not influence the
accept/deny outcome and are elided. -/
def getPhotoById (st : DB) (photoId currentUserId : Nat) : Except String Photo :=
  match st.photos.find? (fun p => p.id == photoId && !p.isDeleted) with
  | none => .error "Photo not found"
  | some photo =>
    let permission := checkPhotoPermission st currentUserId photo.userId
      photo.permissionType photo.customGroupId
    if permission.hasPermission then .ok photo
    else .error ("Access denied: " ++ permission.reason)

/-- Outcome of `PermissionModel.validateFriendships`: which of the requested
ids exist and are friends of the caller, and which are invalid. -/
structure FriendValidation where
  valid : Bool
  validIds : List Nat
  invalidIds : List Nat
  nonExistentIds : List Nat
  nonFriendIds : List Nat
deriving Repr, DecidableEq

/-- `PermissionModel.validateFriendships`: an empty request is trivially
valid; otherwise existence is checked against `users` and friendship against
`friendships` with status `accepted` in either direction, and the requested
ids are partitioned into friends, non-existent ids and existing non-friends. -/
def validateFriendships (st : DB) (currentUserId : Nat) (userIds : List Nat) :
    FriendValidation :=
  if userIds.isEmpty then ⟨true, [], [], [], []⟩
  else
    let existingUserIds := st.users.filter (fun u => userIds.contains u)
    let matching := st.friendships.filter (fun f =>
      ((f.requesterId == currentUserId && userIds.contains f.addresseeId) ||
       (f.addresseeId == currentUserId && userIds.contains f.requesterId)) &&
      f.status == "accepted")
    let friendIds := matching.map (fun f =>
      if f.requesterId == currentUserId then f.addresseeId else f.requesterId)
    let nonExistentIds := userIds.filter (fun i => !existingUserIds.contains i)
    let nonFriendIds := existingUserIds.filter (fun i => !friendIds.contains i)
    ⟨nonExistentIds.isEmpty && nonFriendIds.isEmpty, friendIds,
     nonExistentIds ++ nonFriendIds, nonExistentIds, nonFriendIds⟩

/-- Input of `createPermissionGroup`: name, description and candidate member
ids. -/
structure GroupData where
  name : String
  description : String
  userIds : List Nat
deriving Repr, DecidableEq

/-- Modelled from the spec: `utils/response.utils.js` is not among the source
files, only its callers are.  Per the spec's error taxonomy its two helpers
build a success payload (message plus data) or an error payload (message plus
an HTTP-like status code); the service layer returns one or the other. -/
inductive SvcResp (α : Type) where
  | success (message : String) (data : α)
  | error (message : String) (status : Nat)
deriving Repr, DecidableEq

/-- `PermissionModel.createPermissionGroup`: inside one transaction, insert
the group row (`is_active = true`, id from the SERIAL counter) and one
membership row per supplied user id. -/
def createPermissionGroupModel (st : DB) (userId : Nat) (groupData : GroupData) :
    DB × PermissionGroup :=
  let group : PermissionGroup :=
    ⟨st.nextGroupId, userId, groupData.name, groupData.description, true⟩
  let newMembers := groupData.userIds.map (fun u => (⟨group.id, u⟩ : PermissionGroupMember))
  ({st with permissionGroups := st.permissionGroups ++ [group],
            permissionGroupMembers := st.permissionGroupMembers ++ newMembers,
            nextGroupId := st.nextGroupId + 1},
   group)

/-- `PermissionService.createPermissionGroup`: when member ids are supplied
they are validated first; any invalid id aborts the call with a 400 error
listing the invalid ids, otherwise the group is created with the validated
friend ids as members. -/
def createPermissionGroupSvc (st : DB) (userId : Nat) (groupData : GroupData) :
    DB × SvcResp PermissionGroup :=
  if !groupData.userIds.isEmpty then
    let validation := validateFriendships st userId groupData.userIds
    if !validation.valid then
      (st, .error ("Invalid users: " ++
        String.intercalate ", " (validation.invalidIds.map toString) ++
        ". Users must exist and be friends.") 400)
    else
      let r := createPermissionGroupModel st userId {groupData with userIds := validation.validIds}
      (r.1, .success "Permission group created successfully" r.2)
  else
    let r := createPermissionGroupModel st userId groupData
    (r.1, .success "Permission group created successfully" r.2)

/-- `PermissionModel.getPermissionGroupById`: select the `permission_groups`
row by id, owner and `is_active = true`; when found, return it with the
member user ids of the group. -/
def getPermissionGroupById (st : DB) (groupId ownerId : Nat) :
    Option (PermissionGroup × List Nat) :=
  match st.permissionGroups.find? (fun g =>
      g.id == groupId && g.ownerId == ownerId && g.isActive) with
  | none => none
  | some g =>
    some (g, (st.permissionGroupMembers.filter (fun m => m.groupId == groupId)).map
      (fun m => m.userId))

/-- `PermissionService.getPermissionGroupById`: a missing model result is
reported as the uniform `Permission group not found` 404 error. -/
def getPermissionGroupByIdSvc (st : DB) (groupId userId : Nat) :
    SvcResp (PermissionGroup × List Nat) :=
  match getPermissionGroupById st groupId userId with
  | none => .error "Permission group not found" 404
  | some g => .success "Permission group retrieved successfully" g

/-- A dynamic JavaScript value as it appears in a database row object:
accessing an absent property yields `undefined`, a SQL NULL arrives as `null`. -/
inductive JsVal where
  | undefined
  | null
  | num (n : Int)
  | str (s : String)
  | bool (b : Bool)
deriving Repr, DecidableEq

/-- A row object: property names paired with values. -/
abbrev JsRow := List (String × JsVal)

/-- JavaScript property access on a row: the first matching property, or
`undefined` when the row has no such property. -/
def jsGet (row : JsRow) (key : String) : JsVal :=
  match row.find? (fun p => p.1 == key) with
  | some p => p.2
  | none => .undefined

/-- JavaScript strict equality `===` restricted to the value forms above:
values of different forms (including `undefined` versus a number) are never
strictly equal. -/
def jsStrictEq : JsVal → JsVal → Bool
  | .undefined, .undefined => true
  | .null, .null => true
  | .num a, .num b => a == b
  | .str a, .str b => a == b
  | .bool a, .bool b => a == b
  | _, _ => false

/-- Lift a nullable integer column into a `JsVal`. -/
def optNum : Option Int → JsVal
  | none => .null
  | some n => .num n

/-- The row `SharingModel.getShareById` builds from a `photo_shares` record:
the SELECT aliases are the property names (`shared_by`, `shared_with`, a
literal `individual_photo` share type, NULL `album_id`).  The user display
columns from the JOINs carry no ids and are elided. -/
def photoShareRowJs (s : PhotoShare) : JsRow :=
  [("id", .num s.id), ("shared_by", .num s.sharedBy),
   ("shared_with", .num s.sharedWith), ("share_type", .str "individual_photo"),
   ("album_id", .null), ("photo_id", optNum (s.photoId.map (fun n => (n : Int)))),
   ("permission_level", .str s.permissionLevel), ("expires_at", optNum s.expiresAt),
   ("is_active", .bool s.isActive)]

/-- The row `SharingModel.getShareById` builds from an `album_shares` record. -/
def albumShareRowJs (s : AlbumShare) : JsRow :=
  [("id", .num s.id), ("shared_by", .num s.sharedBy),
   ("shared_with", .num s.sharedWith), ("share_type", .str "album"),
   ("album_id", .num s.albumId), ("photo_id", .null),
   ("permission_level", .str s.permissionLevel), ("expires_at", optNum s.expiresAt),
   ("is_active", .bool s.isActive)]

/-- `SharingModel.getShareById`: look for the id in `photo_shares` first,
then in `album_shares`. -/
def getShareById (st : DB) (shareId : Nat) : Option JsRow :=
  match st.photoShares.find? (fun s => s.id == shareId) with
  | some s => some (photoShareRowJs s)
  | none =>
    match st.albumShares.find? (fun s => s.id == shareId) with
    | some s => some (albumShareRowJs s)
    | none => none

/-- The update payload of `SharingModel.updateShare`: only keys present in
the JavaScript object (value not `undefined`) are written. -/
structure ShareUpdate where
  isActive : Option Bool
  permissionLevel : Option String
  expiresAt : Option (Option Int)
deriving Repr, DecidableEq

/-- Apply a `ShareUpdate` to a `photo_shares` row (the SET clause built from
`mapShareFieldToDb`). -/
def applyShareUpdatePhoto (u : ShareUpdate) (s : PhotoShare) : PhotoShare :=
  {s with isActive := u.isActive.getD s.isActive,
          permissionLevel := u.permissionLevel.getD s.permissionLevel,
          expiresAt := u.expiresAt.getD s.expiresAt}

/-- Apply a `ShareUpdate` to an `album_shares` row. -/
def applyShareUpdateAlbum (u : ShareUpdate) (s : AlbumShare) : AlbumShare :=
  {s with isActive := u.isActive.getD s.isActive,
          permissionLevel := u.permissionLevel.getD s.permissionLevel,
          expiresAt := u.expiresAt.getD s.expiresAt}

/-- `SharingModel.updateShare`: UPDATE `photo_shares` by id first; when no
row matched, UPDATE `album_shares` by id. -/
def updateShareModel (st : DB) (shareId : Nat) (u : ShareUpdate) : DB :=
  if st.photoShares.any (fun s => s.id == shareId) then
    {st with photoShares := st.photoShares.map (fun s =>
      if s.id == shareId then applyShareUpdatePhoto u s else s)}
  else
    {st with albumShares := st.albumShares.map (fun s =>
      if s.id == shareId then applyShareUpdateAlbum u s else s)}

/-- `SharingService.updateShare`: fetch the share row, then guard on
`share.sharer_id !== userId` — a property access on the row exactly as the
source performs it — before running the model update. -/
def updateShareSvc (st : DB) (shareId userId : Nat) (u : ShareUpdate) :
    DB × Except String JsRow :=
  match getShareById st shareId with
  | none => (st, .error "Share not found")
  | some row =>
    if !jsStrictEq (jsGet row "sharer_id") (.num userId) then
      (st, .error "Only the sharer can modify this share")
    else
      let st2 := updateShareModel st shareId u
      (st2, .ok row)

/-- `SharingService.revokeShare`: `updateShare` with `{isActive: false}`. -/
def revokeShareSvc (st : DB) (shareId userId : Nat) : DB × Except String JsRow :=
  updateShareSvc st shareId userId ⟨some false, none, none⟩

/-- `SharingService.reactivateShare`: `updateShare` with `{isActive: true}`. -/
def reactivateShareSvc (st : DB) (shareId userId : Nat) : DB × Except String JsRow :=
  updateShareSvc st shareId userId ⟨some true, none, none⟩

/-- The SQL condition `expires_at IS NULL OR expires_at > CURRENT_TIMESTAMP`. -/
def expiresOk (now : Int) : Option Int → Bool
  | none => true
  | some t => now < t

/-- The status condition `getSharesByUser` builds for `photo_shares` rows:
`active` keeps rows with `is_active = TRUE` and an unexpired (or absent)
`expires_at`; `expired` keeps revoked or elapsed rows; any other status (the
`all` case) keeps everything. -/
def photoShareStatusCond (status : String) (now : Int) (s : PhotoShare) : Bool :=
  if status = "active" then s.isActive && expiresOk now s.expiresAt
  else if status = "expired" then
    !s.isActive || (match s.expiresAt with | some t => t ≤ now | none => false)
  else true

/-- The same status condition for `album_shares` rows. -/
def albumShareStatusCond (status : String) (now : Int) (s : AlbumShare) : Bool :=
  if status = "active" then s.isActive && expiresOk now s.expiresAt
  else if status = "expired" then
    !s.isActive || (match s.expiresAt with | some t => t ≤ now | none => false)
  else true

/-- One row of the UNION the `getSharesByUser` query returns (id and share
columns; the joined display columns are elided). -/
structure ShareView where
  id : Nat
  sharedBy : Nat
  sharedWith : Nat
  shareType : String
  albumId : Option Nat
  photoId : Option Nat
  permissionLevel : String
  expiresAt : Option Int
  isActive : Bool
deriving Repr, DecidableEq

/-- View of a `photo_shares` row inside the UNION (`NULL as album_id`). -/
def photoShareView (s : PhotoShare) : ShareView :=
  ⟨s.id, s.sharedBy, s.sharedWith, "individual_photo", none, s.photoId,
   s.permissionLevel, s.expiresAt, s.isActive⟩

/-- View of an `album_shares` row inside the UNION (`NULL as photo_id`). -/
def albumShareView (s : AlbumShare) : ShareView :=
  ⟨s.id, s.sharedBy, s.sharedWith, "album", some s.albumId, none,
   s.permissionLevel, s.expiresAt, s.isActive⟩

/-- The photo-shares arm of the `getSharesByUser` UNION (the
`photoSharesQuery` the source builds): `shared_by` for direction `given`,
`shared_with` otherwise, plus the status condition. -/
def photoSharesQuery (st : DB) (now : Int) (userId : Nat) (type status : String) :
    List ShareView :=
  (st.photoShares.filter (fun s =>
    (if type = "given" then s.sharedBy == userId else s.sharedWith == userId) &&
    photoShareStatusCond status now s)).map photoShareView

/-- The album-shares arm of the `getSharesByUser` UNION (the
`albumSharesQuery` the source builds). -/
def albumSharesQuery (st : DB) (now : Int) (userId : Nat) (type status : String) :
    List ShareView :=
  (st.albumShares.filter (fun s =>
    (if type = "given" then s.sharedBy == userId else s.sharedWith == userId) &&
    albumShareStatusCond status now s)).map albumShareView

/-- `SharingModel.getSharesByUser`: the UNION of both arms, restricted to
one arm when a concrete share type is requested (the `all_photos` share
type keeps the union as in the source), then paginated.  The
`ORDER BY created_at DESC` only permutes the page and is not modelled;
membership statements are unaffected. -/
def getSharesByUser (st : DB) (now : Int) (userId : Nat) (type status : String)
    (shareType : Option String) (page limit : Nat) : List ShareView :=
  let photoRows := photoSharesQuery st now userId type status
  let albumRows := albumSharesQuery st now userId type status
  let combined :=
    match shareType with
    | none => photoRows ++ albumRows
    | some sty =>
      if sty = "individual_photo" then photoRows
      else if sty = "album" then albumRows
      else photoRows ++ albumRows
  (combined.drop ((page - 1) * limit)).take limit

/-- The share subquery of `PermissionUtils.checkAlbumPermission`: an active,
unexpired `photo_shares` row granting this album from the album owner to the
current user.  (The query names the sharer and recipient columns
`sharer_id` / `recipient_id`; they correspond to the `shared_by` /
`shared_with` columns every other query uses.) -/
def checkAlbumShareQuery (st : DB) (now : Int)
    (albumOwnerId currentUserId albumId : Nat) : Bool :=
  st.photoShares.any (fun s =>
    s.sharedBy == albumOwnerId && s.sharedWith == currentUserId &&
    s.albumId == some albumId && s.isActive && expiresOk now s.expiresAt)

/-- `FriendModel.checkFriendshipExists`: the first `friendships` row between
the two users in either direction, any status. -/
def checkFriendshipExists (st : DB) (userId1 userId2 : Nat) : Option Friendship :=
  st.friendships.find? (fun f =>
    (f.requesterId == userId1 && f.addresseeId == userId2) ||
    (f.requesterId == userId2 && f.addresseeId == userId1))

/-- `FriendService.sendFriendRequest`: reject self-requests and unknown
targets, reject any pre-existing edge with a status-specific message, and
otherwise insert a fresh `pending` edge. -/
def sendFriendRequestSvc (st : DB) (requesterId targetUserId : Nat) :
    Except String DB :=
  if requesterId == targetUserId then
    .error "Cannot send friend request to yourself"
  else if !st.users.contains targetUserId then
    .error "User not found"
  else
    match checkFriendshipExists st requesterId targetUserId with
    | some f =>
      if f.status == "pending" then .error "Friend request already sent or received"
      else if f.status == "accepted" then .error "You are already friends"
      else if f.status == "declined" then .error "Friend request was previously declined"
      else .error "Friendship relationship already exists"
    | none =>
      .ok {st with
        friendships := st.friendships ++
          [⟨st.nextFriendshipId, requesterId, targetUserId, "pending"⟩],
        nextFriendshipId := st.nextFriendshipId + 1}

/-- `FriendModel.getFriendRequestById`: the `friendships` row with this id
whose addressee is the caller, any status. -/
def getFriendRequestById (st : DB) (requestId addresseeId : Nat) : Option Friendship :=
  st.friendships.find? (fun f => f.id == requestId && f.addresseeId == addresseeId)

/-- `FriendModel.updateFriendshipStatus`: UPDATE the status of the row with
this id. -/
def updateFriendshipStatus (st : DB) (requestId : Nat) (status : String) : DB :=
  {st with friendships := st.friendships.map (fun f =>
    if f.id == requestId then {f with status := status} else f)}

/-- `FriendService.respondToFriendRequest` (by request id): only a `pending`
request addressed to the caller can be accepted or declined. -/
def respondToFriendRequestSvc (st : DB) (userId requestId : Nat) (action : String) :
    Except String DB :=
  if !(action == "accept" || action == "decline") then
    .error "Action must be either accept or decline"
  else
    match getFriendRequestById st requestId userId with
    | none => .error "Friend request not found or you are not authorized to respond"
    | some fr =>
      if fr.status != "pending" then
        .error "Friend request has already been responded to"
      else
        .ok (updateFriendshipStatus st requestId
          (if action == "accept" then "accepted" else "declined"))

/-- `FriendModel.findPendingRequestBetweenUsers`: the `pending` row from
`requesterId` to `addresseeId`. -/
def findPendingRequestBetweenUsers (st : DB) (requesterId addresseeId : Nat) :
    Option Friendship :=
  st.friendships.find? (fun f =>
    f.requesterId == requesterId && f.addresseeId == addresseeId &&
    f.status == "pending")

/-- `FriendService.respondToFriendRequestByUserId`: find the pending request
from `friendId` to the caller and update its status. -/
def respondToFriendRequestByUserIdSvc (st : DB) (userId friendId : Nat)
    (action : String) : Except String DB :=
  if !(action == "accept" || action == "decline") then
    .error "Action must be either accept or decline"
  else
    match findPendingRequestBetweenUsers st friendId userId with
    | none => .error "Friend request not found"
    | some fr =>
      .ok (updateFriendshipStatus st fr.id
        (if action == "accept" then "accepted" else "declined"))

/-- `FriendModel.getFriendshipByUsers`: the row involving both users with
status `accepted` (the WHERE clause of the source query). -/
def getFriendshipByUsers (st : DB) (userId friendId : Nat) : Option Friendship :=
  st.friendships.find? (fun f =>
    (f.requesterId == userId || f.addresseeId == userId) &&
    (f.requesterId == friendId || f.addresseeId == friendId) &&
    f.status == "accepted")

/-- `FriendService.removeFriend`: delete the accepted friendship row found by
`getFriendshipByUsers`; a missing row is an error and deletes nothing. -/
def removeFriendSvc (st : DB) (userId friendId : Nat) : Except String DB :=
  match getFriendshipByUsers st userId friendId with
  | none => .error "Friendship not found"
  | some fr =>
    .ok {st with friendships := st.friendships.filter (fun f => !(f.id == fr.id))}

/-- One invocation of a friendship service operation. -/
inductive FriendOp where
  | send (requesterId targetUserId : Nat)
  | respondById (userId requestId : Nat) (action : String)
  | respondByUser (userId friendId : Nat) (action : String)
  | remove (userId friendId : Nat)
deriving Repr, DecidableEq

/-- Run one friendship operation; a thrown error leaves the state unchanged
(every mutation in the source happens after all of that operation's checks). -/
def applyFriendOp (st : DB) (op : FriendOp) : DB :=
  match op with
  | .send a b =>
    match sendFriendRequestSvc st a b with | .ok st2 => st2 | .error _ => st
  | .respondById u r act =>
    match respondToFriendRequestSvc st u r act with | .ok st2 => st2 | .error _ => st
  | .respondByUser u f act =>
    match respondToFriendRequestByUserIdSvc st u f act with | .ok st2 => st2 | .error _ => st
  | .remove u f =>
    match removeFriendSvc st u f with | .ok st2 => st2 | .error _ => st

/-- Run a sequence of friendship operations left to right. -/
def runFriendOps (st : DB) : List FriendOp → DB
  | [] => st
  | op :: rest => runFriendOps (applyFriendOp st op) rest

/-- Two friendship rows concern the same unordered pair of users. -/
def samePair (f g : Friendship) : Prop :=
  (f.requesterId = g.requesterId ∧ f.addresseeId = g.addresseeId) ∨
  (f.requesterId = g.addresseeId ∧ f.addresseeId = g.requesterId)

instance (f g : Friendship) : Decidable (samePair f g) := by
  unfold samePair; infer_instance

/-- Well-formedness of the friendships table: SERIAL ids are distinct and
below the counter, and (as the application maintains through the symmetric
existence check before every insert) at most one row per unordered pair. -/
def friendshipsWf (st : DB) : Prop :=
  (st.friendships.map (fun f => f.id)).Nodup ∧
  (∀ f ∈ st.friendships, f.id < st.nextFriendshipId) ∧
  (∀ f ∈ st.friendships, ∀ g ∈ st.friendships, samePair f g → f = g)

instance (st : DB) : Decidable (friendshipsWf st) := by
  unfold friendshipsWf; infer_instance

/-- A `declined` edge exists between the two users (in either direction). -/
def declinedBetween (st : DB) (a b : Nat) : Prop :=
  ∃ f ∈ st.friendships,
    ((f.requesterId = a ∧ f.addresseeId = b) ∨
     (f.requesterId = b ∧ f.addresseeId = a)) ∧
    f.status = "declined"

instance (st : DB) (a b : Nat) : Decidable (declinedBetween st a b) := by
  unfold declinedBetween; infer_instance

/-- The empty database. -/
def emptyDB : DB := ⟨[], [], [], [], [], [], [], [], [], [], 1, 1⟩

/-- Users 1 and 2 exist and are not friends; photo 5 belongs to user 1 with
policy `friends`; an active, unexpired `photo_shares` row 7 grants photo 5
from user 1 to user 2; a public album 3 of user 1 contains photo 5. -/
def shareGrantSt : DB :=
  {emptyDB with
    users := [1, 2],
    photos := [⟨5, 1, "friends", none, false⟩],
    albums := [⟨3, 1, true⟩],
    albumPhotos := [⟨3, 5⟩],
    photoShares := [⟨7, 1, 2, some 5, none, "view", none, true⟩]}

/-- Users 1 and 2 exist and are not friends (no friendship rows). -/
def notFriendsSt : DB := {emptyDB with users := [1, 2]}

/-- Users 1 and 2 are friends; photo 5 belongs to user 1 with policy
`friends`. -/
def friendsSt : DB :=
  {emptyDB with
    users := [1, 2],
    friendships := [⟨1, 1, 2, "accepted"⟩],
    nextFriendshipId := 2,
    photos := [⟨5, 1, "friends", none, false⟩]}

/-- The custom group 10 of user 1 lists user 2 as allowed but is
soft-deleted (`isActive = false`); photo 5 of user 1 references it. -/
def softDeletedGroupSt : DB :=
  {emptyDB with
    users := [1, 2],
    accessPermissions := [⟨10, 1, some [2], false⟩],
    photos := [⟨5, 1, "custom", some 10, false⟩]}

/-- User 2 owns the active permission group 5; user 1 is a different caller. -/
def foreignGroupSt : DB :=
  {emptyDB with
    users := [1, 2],
    permissionGroups := [⟨5, 2, "g", "", true⟩],
    nextGroupId := 6}

/-- User 1 created share 7 (an active photo share to user 2). -/
def sharerRevokeSt : DB :=
  {emptyDB with
    users := [1, 2],
    photoShares := [⟨7, 1, 2, some 5, none, "view", none, true⟩]}

/-- An expired photo share: `expires_at = 0`, evaluated at `now = 10`. -/
def expiredShare : PhotoShare := ⟨9, 1, 2, some 5, none, "view", some 0, true⟩

/-- A `declined` edge (row 1) stands between users 1 and 2; user 3 exists. -/
def declinedSt : DB :=
  {emptyDB with
    users := [1, 2, 3],
    friendships := [⟨1, 1, 2, "declined"⟩],
    nextFriendshipId := 2}

/-- A sample operation sequence attacking the declined edge from every
provided entry point. -/
def declinedOps : List FriendOp :=
  [.send 1 2, .send 2 1, .respondById 2 1 "accept", .respondByUser 2 1 "accept",
   .remove 1 2, .remove 2 1, .send 1 3, .respondByUser 3 1 "accept"]

/-- Claim C7: for every state, owner and policy value (including malformed
ones), resolving access for the item's own owner yields the allow verdict
with the owner reason, independent of any policy, friendship, group or share
state. -/
theorem owner_always_allowed (st : DB) (u : Nat) (pt : String) (g : Option Nat) :
    checkPhotoPermission st u u pt g = ⟨true, "Owner access"⟩ := by
  simp [checkPhotoPermission]

/-- Claim C8: resolving a photo under policy `friends` is exactly the same
decision as under `close_friends`, and for a viewer other than the owner the
verdict is precisely the accepted-friendship predicate. -/
theorem friends_equals_close_friends (st : DB) (v o : Nat) (g : Option Nat) :
    checkPhotoPermission st v o "friends" g =
      checkPhotoPermission st v o "close_friends" g ∧
    (v ≠ o → (checkPhotoPermission st v o "friends" g).hasPermission = areFriends st v o) := by
  constructor
  · by_cases h : v = o <;> simp [checkPhotoPermission, h]
  · intro h
    simp [checkPhotoPermission, h]

/-- Claim C1 (amended): photo access resolution consults no share grants —
its verdict is invariant under arbitrary replacement of the share tables,
its reason is never `shared_grant`, and a non-friend viewer of a
`friends`-policy photo is denied regardless of any grant. -/
theorem photo_resolution_ignores_shares (st : DB) (ps : List PhotoShare)
    (als : List AlbumShare) (v o : Nat) (pt : String) (g : Option Nat) :
    checkPhotoPermission {st with photoShares := ps, albumShares := als} v o pt g =
      checkPhotoPermission st v o pt g ∧
    (checkPhotoPermission st v o pt g).reason ≠ "shared_grant" ∧
    (v ≠ o → areFriends st v o = false →
      checkPhotoPermission st v o "friends" g = ⟨false, "Not friends"⟩) := by
  refine ⟨rfl, ?_, ?_⟩
  · by_cases h1 : v = o
    · simp [checkPhotoPermission, h1]
    · by_cases h2 : pt = "public"
      · simp [checkPhotoPermission, h1, h2]
      · by_cases h3 : pt = "friends" ∨ pt = "close_friends"
        · cases hf : areFriends st v o <;>
            simp [checkPhotoPermission, h1, h2, h3, hf]
        · by_cases h4 : pt = "custom"
          · cases g with
            | none => simp [checkPhotoPermission, h1, h2, h3, h4]
            | some gid =>
              cases hr : st.accessPermissions.find? (fun r => r.id == gid && r.userId == o) with
              | none => simp [checkPhotoPermission, h1, h2, h3, h4, hr]
              | some r =>
                by_cases hm : v ∈ r.allowedUserIds.getD [] <;>
                  simp [checkPhotoPermission, h1, h2, h3, h4, hr, hm]
          · simp [checkPhotoPermission, h1, h2, h3, h4]
  · intro hne hnf
    simp [checkPhotoPermission, hne, hnf]

/-- Claim C1 counterexample: in `shareGrantSt` an effective exact-scope grant
from owner 1 to viewer 2 exists for photo 5, yet resolution denies with
`Not friends` (there is no `shared_grant` reason), and reading the photo
fails. -/
theorem share_grant_does_not_allow :
    (shareGrantSt.photoShares.any (fun s => s.sharedBy == 1 && s.sharedWith == 2 &&
      s.photoId == some 5 && s.isActive && expiresOk 0 s.expiresAt)) = true ∧
    areFriends shareGrantSt 2 1 = false ∧
    checkPhotoPermission shareGrantSt 2 1 "friends" none = ⟨false, "Not friends"⟩ ∧
    getPhotoById shareGrantSt 5 2 = .error "Access denied: Not friends" := by
  refine ⟨by decide, by decide, by decide, ?_⟩
  rfl

/-- Claim C1 witness: the amended statement applied at a concrete non-friend
pair. -/
theorem photo_resolution_ignores_shares_witness :
    (2 : Nat) ≠ 1 ∧ areFriends notFriendsSt 2 1 = false ∧
    checkPhotoPermission notFriendsSt 2 1 "friends" none = ⟨false, "Not friends"⟩ :=
  ⟨by decide, by decide,
   (photo_resolution_ignores_shares notFriendsSt [] [] 2 1 "friends" none).2.2
     (by decide) (by decide)⟩

/-- Claim C2 (amended): `getPhotoById` performs only direct photo-level
resolution — its outcome is invariant under arbitrary replacement of the
album, album-containment and album-share tables — so a viewer who is neither
the owner nor a friend is denied a `friends`-policy photo even when it sits
inside an album. -/
theorem getPhotoById_ignores_albums (st : DB) (al : List Album)
    (ap : List AlbumPhoto) (als : List AlbumShare) (pid v : Nat) (p : Photo) :
    getPhotoById {st with albums := al, albumPhotos := ap, albumShares := als} pid v =
      getPhotoById st pid v ∧
    (st.photos.find? (fun q => q.id == pid && !q.isDeleted) = some p →
     p.permissionType = "friends" → v ≠ p.userId → areFriends st v p.userId = false →
     getPhotoById st pid v = .error "Access denied: Not friends") := by
  refine ⟨rfl, ?_⟩
  intro hfind hpt hne hnf
  simp [getPhotoById, hfind, hpt, checkPhotoPermission, hne, hnf]

/-- Claim C2 counterexample: photo 5 (`friends` policy, owner 1) lies inside
the public album 3 of the same owner, yet `getPhotoById` denies the
non-friend viewer 2 — the album path is never taken. -/
theorem album_disjunction_fails :
    (shareGrantSt.albums.any (fun a => a.id == 3 && a.userId == 1 && a.isPublic)) = true ∧
    shareGrantSt.albumPhotos.contains ⟨3, 5⟩ = true ∧
    (shareGrantSt.photos.any (fun p => p.id == 5 && p.userId == 1 &&
      p.permissionType == "friends")) = true ∧
    areFriends shareGrantSt 2 1 = false ∧
    getPhotoById shareGrantSt 5 2 = .error "Access denied: Not friends" :=
  ⟨by decide, by decide, by decide, by decide, rfl⟩

/-- Claim C2 witness: the amended statement applied at the concrete scenario
state. -/
theorem getPhotoById_ignores_albums_witness :
    getPhotoById {shareGrantSt with albums := [], albumPhotos := [], albumShares := []} 5 2 =
      getPhotoById shareGrantSt 5 2 ∧
    getPhotoById shareGrantSt 5 2 = .error "Access denied: Not friends" :=
  ⟨(getPhotoById_ignores_albums shareGrantSt [] [] [] 5 2 ⟨5, 1, "friends", none, false⟩).1,
   (getPhotoById_ignores_albums shareGrantSt [] [] [] 5 2 ⟨5, 1, "friends", none, false⟩).2
     rfl rfl (by decide) (by decide)⟩

/-- Claim C3 (amended): when any supplied member id is nonexistent or not a
current friend, `createPermissionGroup` fails with a 400 error naming the
invalid ids and creates nothing — invalid members are fatal, not silently
dropped; when every supplied id validates, the group row and exactly the
validated friend ids are inserted and the response is a plain success
carrying the group (no accepted/rejected enumeration). -/
theorem create_group_invalid_members_fatal (st : DB) (userId : Nat)
    (groupData : GroupData) :
    (groupData.userIds ≠ [] →
      (validateFriendships st userId groupData.userIds).valid = false →
      createPermissionGroupSvc st userId groupData =
        (st, .error ("Invalid users: " ++
          String.intercalate ", "
            ((validateFriendships st userId groupData.userIds).invalidIds.map toString) ++
          ". Users must exist and be friends.") 400)) ∧
    (groupData.userIds ≠ [] →
      (validateFriendships st userId groupData.userIds).valid = true →
      (createPermissionGroupSvc st userId groupData).1.permissionGroups =
        st.permissionGroups ++
          [⟨st.nextGroupId, userId, groupData.name, groupData.description, true⟩] ∧
      (createPermissionGroupSvc st userId groupData).1.permissionGroupMembers =
        st.permissionGroupMembers ++
          ((validateFriendships st userId groupData.userIds).validIds.map
            (fun u => (⟨st.nextGroupId, u⟩ : PermissionGroupMember))) ∧
      (createPermissionGroupSvc st userId groupData).2 =
        .success "Permission group created successfully"
          ⟨st.nextGroupId, userId, groupData.name, groupData.description, true⟩) := by
  have hne : groupData.userIds ≠ [] → groupData.userIds.isEmpty = false := by
    cases groupData.userIds <;> simp
  constructor
  · intro h hv
    simp [createPermissionGroupSvc, hne h, hv]
  · intro h hv
    refine ⟨?_, ?_, ?_⟩ <;>
      simp [createPermissionGroupSvc, hne h, hv, createPermissionGroupModel]

/-- Claim C3 counterexample: user 2 exists but is not a friend of user 1;
group creation with member list `[2]` does not succeed with 2 dropped — it
fails with a 400 error and the database is unchanged. -/
theorem create_group_nonfriend_member_fails :
    createPermissionGroupSvc notFriendsSt 1 ⟨"My group", "d", [2]⟩ =
      (notFriendsSt,
       .error "Invalid users: 2. Users must exist and be friends." 400) := by
  rfl

/-- Claim C3 witness: the amended statement applied at a concrete state, in
the fatal case and in the all-valid case. -/
theorem create_group_invalid_members_fatal_witness :
    (validateFriendships notFriendsSt 1 [2]).valid = false ∧
    createPermissionGroupSvc notFriendsSt 1 ⟨"g", "d", [2]⟩ =
      (notFriendsSt, .error "Invalid users: 2. Users must exist and be friends." 400) ∧
    (validateFriendships friendsSt 1 [2]).valid = true ∧
    (createPermissionGroupSvc friendsSt 1 ⟨"g", "d", [2]⟩).1.permissionGroupMembers =
      [⟨1, 2⟩] :=
  ⟨by decide,
   ((create_group_invalid_members_fatal notFriendsSt 1 ⟨"g", "d", [2]⟩).1
      (by decide) (by decide)).trans (by rfl),
   by decide,
   (((create_group_invalid_members_fatal friendsSt 1 ⟨"g", "d", [2]⟩).2
      (by decide) (by decide)).2.1).trans (by rfl)⟩

/-- Setting every `access_permissions` row's soft-delete flag commutes with
the custom-group lookup: the find only tests id and owner. -/
theorem find_accessPermission_setActive (l : List AccessPermission) (b : Bool)
    (gid o : Nat) :
    (l.map (fun r => {r with isActive := b})).find?
        (fun q => q.id == gid && q.userId == o) =
      (l.find? (fun q => q.id == gid && q.userId == o)).map
        (fun r => {r with isActive := b}) := by
  induction l with
  | nil => rfl
  | cons a tl ih =>
    by_cases h : (a.id == gid && a.userId == o) = true <;>
      simp [List.find?_cons, h, ih]

/-- Claim C6 (amended): for a non-owner viewer, the `custom` branch allows
access iff a groupId is set, an `access_permissions` row with that id owned
by the photo owner exists, and the viewer is listed in `allowed_user_ids`;
the group's soft-delete flag is never consulted (the verdict is invariant
under rewriting every row's flag), and a missing groupId denies. -/
theorem custom_policy_ignores_soft_delete (st : DB) (v o gid : Nat) (h : v ≠ o) :
    (∀ b : Bool,
      checkPhotoPermission
        {st with accessPermissions :=
          st.accessPermissions.map (fun r => {r with isActive := b})}
        v o "custom" (some gid) =
      checkPhotoPermission st v o "custom" (some gid)) ∧
    ((checkPhotoPermission st v o "custom" (some gid)).hasPermission = true ↔
      ∃ r, st.accessPermissions.find? (fun q => q.id == gid && q.userId == o) = some r ∧
        v ∈ r.allowedUserIds.getD []) ∧
    checkPhotoPermission st v o "custom" none = ⟨false, "Custom group ID required"⟩ := by
  refine ⟨?_, ?_, ?_⟩
  · intro b
    simp only [checkPhotoPermission, find_accessPermission_setActive]
    cases hr : st.accessPermissions.find? (fun q => q.id == gid && q.userId == o) <;>
      simp [h, hr]
  · cases hr : st.accessPermissions.find? (fun q => q.id == gid && q.userId == o) with
    | none => simp [checkPhotoPermission, h, hr]
    | some r =>
      by_cases hm : v ∈ r.allowedUserIds.getD [] <;>
        simp [checkPhotoPermission, h, hr, hm]
  · simp [checkPhotoPermission, h]

/-- Claim C6 counterexample: group 10 of owner 1 is soft-deleted
(`isActive = false`) yet the non-owner member 2 is still allowed: the photo
referencing the deleted group does not resolve to deny. -/
theorem soft_deleted_group_still_grants :
    (softDeletedGroupSt.accessPermissions.any
      (fun r => r.id == 10 && r.userId == 1 && !r.isActive)) = true ∧
    checkPhotoPermission softDeletedGroupSt 2 1 "custom" (some 10) =
      ⟨true, "Custom group access"⟩ ∧
    getPhotoById softDeletedGroupSt 5 2 = .ok ⟨5, 1, "custom", some 10, false⟩ :=
  ⟨by decide, by decide, rfl⟩

/-- Claim C6 witness: the amended statement applied at the soft-deleted
group state. -/
theorem custom_policy_ignores_soft_delete_witness :
    checkPhotoPermission
      {softDeletedGroupSt with accessPermissions :=
        softDeletedGroupSt.accessPermissions.map (fun r => {r with isActive := true})}
      2 1 "custom" (some 10) =
      checkPhotoPermission softDeletedGroupSt 2 1 "custom" (some 10) ∧
    checkPhotoPermission softDeletedGroupSt 2 1 "custom" none =
      ⟨false, "Custom group ID required"⟩ :=
  ⟨(custom_policy_ignores_soft_delete softDeletedGroupSt 2 1 10 (by decide)).1 true,
   (custom_policy_ignores_soft_delete softDeletedGroupSt 2 1 10 (by decide)).2.2⟩

/-- Claim C9: whenever the requested permission group does not exist, is
owned by another user, or is soft-deleted, the service returns the one
uniform `Permission group not found` 404 error — the three conditions are
observably indistinguishable. -/
theorem group_not_found_uniform (st : DB) (gid u : Nat)
    (hnd : (st.permissionGroups.map (fun g => g.id)).Nodup)
    (hcase : (∀ g ∈ st.permissionGroups, g.id ≠ gid) ∨
             (∃ g ∈ st.permissionGroups, g.id = gid ∧ g.ownerId ≠ u) ∨
             (∃ g ∈ st.permissionGroups, g.id = gid ∧ g.isActive = false)) :
    getPermissionGroupByIdSvc st gid u = .error "Permission group not found" 404 := by
  have hnone : st.permissionGroups.find?
      (fun g => g.id == gid && g.ownerId == u && g.isActive) = none := by
    rw [List.find?_eq_none]
    intro g hg hp
    simp only [Bool.and_eq_true, beq_iff_eq] at hp
    obtain ⟨⟨hid, hown⟩, hact⟩ := hp
    rcases hcase with hno | ⟨g2, hg2, hid2, hown2⟩ | ⟨g2, hg2, hid2, hact2⟩
    · exact hno g hg hid
    · have : g2 = g := List.inj_on_of_nodup_map hnd hg2 hg (by rw [hid2, hid])
      exact hown2 (this ▸ hown)
    · have : g2 = g := List.inj_on_of_nodup_map hnd hg2 hg (by rw [hid2, hid])
      rw [this, hact] at hact2
      exact absurd hact2 (by decide)
  simp [getPermissionGroupByIdSvc, getPermissionGroupById, hnone]

/-- Claim C9 witness: the uniform error applied at a concrete state where
the group exists but belongs to another user. -/
theorem group_not_found_uniform_witness :
    (foreignGroupSt.permissionGroups.map (fun g => g.id)).Nodup ∧
    getPermissionGroupByIdSvc foreignGroupSt 5 1 =
      .error "Permission group not found" 404 :=
  ⟨by decide,
   group_not_found_uniform foreignGroupSt 5 1 (by decide)
     (Or.inr (Or.inl (by decide)))⟩


/-- An UPDATE whose payload carries no `expires_at` key leaves every
`photo_shares` expiry unchanged. -/
theorem photoShares_update_keeps_expiry (l : List PhotoShare) (sid : Nat)
    (u : ShareUpdate) (hu : u.expiresAt = none) :
    (l.map (fun x => if x.id == sid then applyShareUpdatePhoto u x else x)).map
        (fun x => x.expiresAt) =
      l.map (fun x => x.expiresAt) := by
  induction l with
  | nil => rfl
  | cons a tl ih =>
    have hhead : (if (a.id == sid) = true then applyShareUpdatePhoto u a else a).expiresAt
        = a.expiresAt := by
      by_cases h : (a.id == sid) = true <;> simp [h, applyShareUpdatePhoto, hu]
    simp only [List.map_cons, hhead, ih]

/-- The `album_shares` analogue. -/
theorem albumShares_update_keeps_expiry (l : List AlbumShare) (sid : Nat)
    (u : ShareUpdate) (hu : u.expiresAt = none) :
    (l.map (fun x => if x.id == sid then applyShareUpdateAlbum u x else x)).map
        (fun x => x.expiresAt) =
      l.map (fun x => x.expiresAt) := by
  induction l with
  | nil => rfl
  | cons a tl ih =>
    have hhead : (if (a.id == sid) = true then applyShareUpdateAlbum u a else a).expiresAt
        = a.expiresAt := by
      by_cases h : (a.id == sid) = true <;> simp [h, applyShareUpdateAlbum, hu]
    simp only [List.map_cons, hhead, ih]

/-- Whatever share-type restriction is requested, the share listing draws
only from the two UNION arms. -/
theorem mem_getSharesByUser_arms (st : DB) (now : Int) (uid : Nat)
    (ty status : String) (sh : Option String) (page limit : Nat) (v : ShareView)
    (hv : v ∈ getSharesByUser st now uid ty status sh page limit) :
    v ∈ photoSharesQuery st now uid ty status ++ albumSharesQuery st now uid ty status := by
  simp only [getSharesByUser] at hv
  have hv2 := List.drop_subset _ _ (List.take_subset _ _ hv)
  cases sh with
  | none => exact hv2
  | some sty =>
    by_cases h1 : sty = "individual_photo"
    · subst h1
      exact List.mem_append_left _ hv2
    · by_cases h2 : sty = "album"
      · subst h2
        exact List.mem_append_right _ hv2
      · have hv3 : v ∈ (if sty = "individual_photo"
            then photoSharesQuery st now uid ty status
            else if sty = "album" then albumSharesQuery st now uid ty status
            else photoSharesQuery st now uid ty status ++
              albumSharesQuery st now uid ty status) := hv2
        rw [if_neg h1, if_neg h2] at hv3
        exact hv3

/-- Every row the `active`-status share listing returns is active and
unexpired. -/
theorem mem_getSharesByUser_active (st : DB) (now : Int) (uid : Nat)
    (ty : String) (sh : Option String) (page limit : Nat) (v : ShareView)
    (hv : v ∈ getSharesByUser st now uid ty "active" sh page limit) :
    v.isActive = true ∧ expiresOk now v.expiresAt = true := by
  have hv2 := mem_getSharesByUser_arms st now uid ty "active" sh page limit v hv
  rcases List.mem_append.mp hv2 with hmem | hmem
  · obtain ⟨s, hs, hview⟩ := List.mem_map.mp hmem
    rw [List.mem_filter] at hs
    have hcond : photoShareStatusCond "active" now s = true := by
      have := hs.2
      simp only [Bool.and_eq_true] at this
      exact this.2
    simp [photoShareStatusCond] at hcond
    rw [← hview]
    exact ⟨hcond.1, hcond.2⟩
  · obtain ⟨s, hs, hview⟩ := List.mem_map.mp hmem
    rw [List.mem_filter] at hs
    have hcond : albumShareStatusCond "active" now s = true := by
      have := hs.2
      simp only [Bool.and_eq_true] at this
      exact this.2
    simp [albumShareStatusCond] at hcond
    rw [← hview]
    exact ⟨hcond.1, hcond.2⟩

/-- Claim C5: a share whose expiry lies strictly in the past is never
effective: the `active` status filter rejects it even with
`is_active = true`, it never appears in the `active` share listing, it never
satisfies the album share-access subquery, and the reactivation payload
(`{isActive: true}` of `reactivateShare`) touches only the active flag —
expiry survives every such update, so the reactivated share is still
ineffective. -/
theorem expired_share_never_effective (now t : Int) (s : PhotoShare) (st : DB)
    (hexp : s.expiresAt = some t) (hpast : t < now) :
    photoShareStatusCond "active" now s = false ∧
    (∀ uid ty sh page limit,
      photoShareView s ∉ getSharesByUser st now uid ty "active" sh page limit) ∧
    (∀ ownerId viewerId albumId,
      checkAlbumShareQuery {st with photoShares := [s]} now ownerId viewerId albumId = false) ∧
    (applyShareUpdatePhoto ⟨some true, none, none⟩ s).expiresAt = s.expiresAt ∧
    photoShareStatusCond "active" now (applyShareUpdatePhoto ⟨some true, none, none⟩ s) = false ∧
    (∀ sid, (updateShareModel st sid ⟨some true, none, none⟩).photoShares.map
        (fun x => x.expiresAt) = st.photoShares.map (fun x => x.expiresAt)) ∧
    (∀ sid, (updateShareModel st sid ⟨some true, none, none⟩).albumShares.map
        (fun x => x.expiresAt) = st.albumShares.map (fun x => x.expiresAt)) := by
  have hlt : ¬(now < t) := by omega
  refine ⟨?_, ?_, ?_, rfl, ?_, ?_, ?_⟩
  · simp [photoShareStatusCond, hexp, expiresOk, hlt]
  · intro uid ty sh page limit hmem
    have := mem_getSharesByUser_active st now uid ty sh page limit _ hmem
    simp [photoShareView, hexp, expiresOk, hlt] at this
  · intro ownerId viewerId albumId
    simp [checkAlbumShareQuery, hexp, expiresOk, hlt]
  · simp [applyShareUpdatePhoto, photoShareStatusCond, hexp, expiresOk, hlt]
  · intro sid
    unfold updateShareModel
    by_cases hc : (st.photoShares.any (fun x => x.id == sid)) = true
    · rw [if_pos hc]
      exact photoShares_update_keeps_expiry st.photoShares sid ⟨some true, none, none⟩ rfl
    · rw [if_neg hc]
  · intro sid
    unfold updateShareModel
    by_cases hc : (st.photoShares.any (fun x => x.id == sid)) = true
    · rw [if_pos hc]
    · rw [if_neg hc]
      exact albumShares_update_keeps_expiry st.albumShares sid ⟨some true, none, none⟩ rfl

/-- Claim C5 witness: the expired-share properties applied at a concrete
expired-but-active share. -/
theorem expired_share_never_effective_witness :
    expiredShare.expiresAt = some 0 ∧ (0 : Int) < 10 ∧
    expiredShare.isActive = true ∧
    photoShareStatusCond "active" 10 expiredShare = false ∧
    photoShareStatusCond "active" 10
      (applyShareUpdatePhoto ⟨some true, none, none⟩ expiredShare) = false :=
  ⟨rfl, by decide, rfl,
   (expired_share_never_effective 10 0 expiredShare emptyDB rfl (by decide)).1,
   (expired_share_never_effective 10 0 expiredShare emptyDB rfl (by decide)).2.2.2.2.1⟩

/-- The rows `getShareById` returns carry no `sharer_id` property: the
SELECT aliases are `shared_by` / `shared_with`, so the property access the
sharing service performs yields `undefined`. -/
theorem getShareById_no_sharer_id (st : DB) (shareId : Nat) (row : JsRow)
    (h : getShareById st shareId = some row) :
    jsGet row "sharer_id" = .undefined := by
  unfold getShareById at h
  cases h1 : st.photoShares.find? (fun s => s.id == shareId) with
  | some s =>
    rw [h1] at h
    cases h
    rfl
  | none =>
    rw [h1] at h
    cases h2 : st.albumShares.find? (fun s => s.id == shareId) with
    | some s =>
      rw [h2] at h
      cases h
      rfl
    | none =>
      rw [h2] at h
      cases h

/-- Claim C4: the sharing service guards revoke/reactivate/update with
`share.sharer_id !== userId`, but the share row only has a `shared_by`
property, so the guard compares `undefined` with the caller id and rejects
every requester — including the sharer.  `updateShare` therefore never
modifies any share and never succeeds: it answers `Share not found` or
`Only the sharer can modify this share`, for all states, callers and
payloads. -/
theorem updateShare_rejects_everyone (st : DB) (shareId userId : Nat)
    (u : ShareUpdate) :
    (updateShareSvc st shareId userId u).1 = st ∧
    ((updateShareSvc st shareId userId u).2 = .error "Share not found" ∨
     (updateShareSvc st shareId userId u).2 =
       .error "Only the sharer can modify this share") ∧
    revokeShareSvc sharerRevokeSt 7 1 =
      (sharerRevokeSt, .error "Only the sharer can modify this share") ∧
    reactivateShareSvc sharerRevokeSt 7 1 =
      (sharerRevokeSt, .error "Only the sharer can modify this share") := by
  have hmain : (updateShareSvc st shareId userId u).1 = st ∧
      ((updateShareSvc st shareId userId u).2 = .error "Share not found" ∨
       (updateShareSvc st shareId userId u).2 =
         .error "Only the sharer can modify this share") := by
    unfold updateShareSvc
    cases hrow : getShareById st shareId with
    | none => exact ⟨rfl, Or.inl rfl⟩
    | some row =>
      have hundef := getShareById_no_sharer_id st shareId row hrow
      simp [hundef, jsStrictEq]
  exact ⟨hmain.1, hmain.2, rfl, rfl⟩

/-- Inversion of a successful `sendFriendRequest`: no edge existed between
the pair and the fresh `pending` edge was appended. -/
theorem sendFriendRequest_ok (st : DB) (r t : Nat) (st2 : DB)
    (h : sendFriendRequestSvc st r t = .ok st2) :
    checkFriendshipExists st r t = none ∧
    st2 = {st with
      friendships := st.friendships ++ [⟨st.nextFriendshipId, r, t, "pending"⟩],
      nextFriendshipId := st.nextFriendshipId + 1} := by
  unfold sendFriendRequestSvc at h
  by_cases h1 : (r == t) = true
  · rw [if_pos h1] at h; simp at h
  · rw [if_neg h1] at h
    by_cases h2 : (!st.users.contains t) = true
    · rw [if_pos h2] at h; simp at h
    · rw [if_neg h2] at h
      cases hck : checkFriendshipExists st r t with
      | some f =>
        rw [hck] at h
        have herr : ∀ e : Friendship,
            (if (e.status == "pending") = true
              then (Except.error "Friend request already sent or received" : Except String DB)
              else if (e.status == "accepted") = true then Except.error "You are already friends"
              else if (e.status == "declined") = true
              then Except.error "Friend request was previously declined"
              else Except.error "Friendship relationship already exists") ≠ Except.ok st2 := by
          intro e
          split_ifs <;> simp
        exact absurd h (herr f)
      | none =>
        rw [hck] at h
        simp at h
        exact ⟨rfl, h.symm⟩

/-- Inversion of a successful `respondToFriendRequest` (by request id): the
addressed request exists, was `pending`, and only its status was updated. -/
theorem respondToFriendRequest_ok (st : DB) (u rid : Nat) (act : String) (st2 : DB)
    (h : respondToFriendRequestSvc st u rid act = .ok st2) :
    ∃ fr, getFriendRequestById st rid u = some fr ∧ fr.status = "pending" ∧
      st2 = updateFriendshipStatus st rid
        (if act == "accept" then "accepted" else "declined") := by
  unfold respondToFriendRequestSvc at h
  by_cases h1 : (!(act == "accept" || act == "decline")) = true
  · rw [if_pos h1] at h; simp at h
  · rw [if_neg h1] at h
    cases hfr : getFriendRequestById st rid u with
    | none => rw [hfr] at h; simp at h
    | some fr =>
      rw [hfr] at h
      have h3 : (if (fr.status != "pending") = true
          then (Except.error "Friend request has already been responded to" : Except String DB)
          else Except.ok (updateFriendshipStatus st rid
            (if act == "accept" then "accepted" else "declined"))) = Except.ok st2 := h
      by_cases h2 : (fr.status != "pending") = true
      · rw [if_pos h2] at h3; simp at h3
      · rw [if_neg h2] at h3
        injection h3 with h4
        refine ⟨fr, rfl, ?_, h4.symm⟩
        simpa using h2

/-- Inversion of a successful `respondToFriendRequestByUserId`: a pending
request from the friend to the caller exists and only its status was
updated. -/
theorem respondToFriendRequestByUserId_ok (st : DB) (u f : Nat) (act : String)
    (st2 : DB) (h : respondToFriendRequestByUserIdSvc st u f act = .ok st2) :
    ∃ fr, findPendingRequestBetweenUsers st f u = some fr ∧
      st2 = updateFriendshipStatus st fr.id
        (if act == "accept" then "accepted" else "declined") := by
  unfold respondToFriendRequestByUserIdSvc at h
  by_cases h1 : (!(act == "accept" || act == "decline")) = true
  · rw [if_pos h1] at h; simp at h
  · rw [if_neg h1] at h
    cases hfr : findPendingRequestBetweenUsers st f u with
    | none => rw [hfr] at h; simp at h
    | some fr =>
      rw [hfr] at h
      have h3 : Except.ok (updateFriendshipStatus st fr.id
          (if act == "accept" then "accepted" else "declined")) = Except.ok st2 := h
      injection h3 with h4
      exact ⟨fr, rfl, h4.symm⟩

/-- Inversion of a successful `removeFriend`: an accepted friendship row
between the users exists and exactly the rows with its id were deleted. -/
theorem removeFriend_ok (st : DB) (u f : Nat) (st2 : DB)
    (h : removeFriendSvc st u f = .ok st2) :
    ∃ fr, getFriendshipByUsers st u f = some fr ∧
      st2 = {st with friendships := st.friendships.filter (fun x => !(x.id == fr.id))} := by
  unfold removeFriendSvc at h
  cases hfr : getFriendshipByUsers st u f with
  | none => rw [hfr] at h; simp at h
  | some fr =>
    rw [hfr] at h
    have h3 : Except.ok {st with
        friendships := st.friendships.filter (fun x => !(x.id == fr.id))} = Except.ok st2 := h
    injection h3 with h4
    exact ⟨fr, rfl, h4.symm⟩

/-- The status-update map keeps the id field. -/
theorem updStatus_id (rid : Nat) (s' : String) (f : Friendship) :
    ((if f.id == rid then {f with status := s'} else f) : Friendship).id = f.id := by
  by_cases h : (f.id == rid) = true <;> simp [h]

/-- The status-update map keeps the requester field. -/
theorem updStatus_req (rid : Nat) (s' : String) (f : Friendship) :
    ((if f.id == rid then {f with status := s'} else f) : Friendship).requesterId =
      f.requesterId := by
  by_cases h : (f.id == rid) = true <;> simp [h]

/-- The status-update map keeps the addressee field. -/
theorem updStatus_add (rid : Nat) (s' : String) (f : Friendship) :
    ((if f.id == rid then {f with status := s'} else f) : Friendship).addresseeId =
      f.addresseeId := by
  by_cases h : (f.id == rid) = true <;> simp [h]

/-- The id projection of the status-update map is the identity on the list
of ids. -/
theorem map_id_statusUpdate (l : List Friendship) (rid : Nat) (s' : String) :
    (l.map (fun f => if f.id == rid then {f with status := s'} else f)).map
        (fun f => f.id) =
      l.map (fun f => f.id) := by
  induction l with
  | nil => rfl
  | cons a tl ih => simp only [List.map_cons, updStatus_id, ih]

/-- `updateFriendshipStatus` preserves well-formedness of the friendships
table. -/
theorem updateFriendshipStatus_wf (st : DB) (rid : Nat) (s' : String)
    (hwf : friendshipsWf st) : friendshipsWf (updateFriendshipStatus st rid s') := by
  obtain ⟨hnd, hbd, hun⟩ := hwf
  refine ⟨?_, ?_, ?_⟩
  · show ((st.friendships.map _).map _).Nodup
    rw [map_id_statusUpdate]
    exact hnd
  · intro g hg
    obtain ⟨f, hf, rfl⟩ := List.mem_map.mp hg
    rw [updStatus_id]
    exact hbd f hf
  · intro g1 hg1 g2 hg2 hsp
    obtain ⟨f1, hf1, rfl⟩ := List.mem_map.mp hg1
    obtain ⟨f2, hf2, rfl⟩ := List.mem_map.mp hg2
    have hsp2 : samePair f1 f2 := by
      unfold samePair at hsp ⊢
      rw [updStatus_req, updStatus_add, updStatus_req, updStatus_add] at hsp
      exact hsp
    rw [hun f1 hf1 f2 hf2 hsp2]

/-- `updateFriendshipStatus` keeps a declined edge whose id differs from the
updated id. -/
theorem updateFriendshipStatus_declined (st : DB) (a b rid : Nat) (s' : String)
    (hd : declinedBetween st a b)
    (hne : ∀ fd ∈ st.friendships,
      ((fd.requesterId = a ∧ fd.addresseeId = b) ∨
       (fd.requesterId = b ∧ fd.addresseeId = a)) →
      fd.status = "declined" → fd.id ≠ rid) :
    declinedBetween (updateFriendshipStatus st rid s') a b := by
  obtain ⟨fd, hfd, hp, hs⟩ := hd
  have hid : fd.id ≠ rid := hne fd hfd hp hs
  refine ⟨fd, ?_, hp, hs⟩
  have heq : (fun f => if f.id == rid then {f with status := s'} else f) fd = fd := by
    simp [hid]
  exact heq ▸ List.mem_map_of_mem _ hfd

/-- Under well-formedness, a declined edge between two users excludes any
accepted edge between them: the permission-layer friendship predicate is
false. -/
theorem wf_declined_not_friends (st : DB) (a b : Nat)
    (hwf : friendshipsWf st) (hd : declinedBetween st a b) :
    areFriends st a b = false := by
  obtain ⟨hnd, hbd, hun⟩ := hwf
  obtain ⟨fd, hfd, hp, hs⟩ := hd
  by_contra hcon
  rw [Bool.not_eq_false, areFriends, List.any_eq_true] at hcon
  obtain ⟨g, hg, hgp⟩ := hcon
  simp only [Bool.and_eq_true, Bool.or_eq_true, beq_iff_eq] at hgp
  obtain ⟨hdir, hacc⟩ := hgp
  have hsp : samePair fd g := by
    unfold samePair
    rcases hp with ⟨h1, h2⟩ | ⟨h1, h2⟩ <;> rcases hdir with ⟨h3, h4⟩ | ⟨h3, h4⟩
    · exact Or.inl ⟨by omega, by omega⟩
    · exact Or.inr ⟨by omega, by omega⟩
    · exact Or.inr ⟨by omega, by omega⟩
    · exact Or.inl ⟨by omega, by omega⟩
  have heq := hun fd hfd g hg hsp
  rw [heq, hacc] at hs
  exact absurd hs (by decide)

/-- Each friendship operation preserves table well-formedness and a declined
edge between any fixed pair. -/
theorem applyFriendOp_preserves (st : DB) (op : FriendOp) (a b : Nat)
    (hwf : friendshipsWf st) (hd : declinedBetween st a b) :
    friendshipsWf (applyFriendOp st op) ∧ declinedBetween (applyFriendOp st op) a b := by
  obtain ⟨hnd, hbd, hun⟩ := hwf
  cases op with
  | send r t =>
    simp only [applyFriendOp]
    cases hres : sendFriendRequestSvc st r t with
    | error e => exact ⟨⟨hnd, hbd, hun⟩, hd⟩
    | ok st2 =>
      obtain ⟨hck, rfl⟩ := sendFriendRequest_ok st r t st2 hres
      have hnomatch := List.find?_eq_none.mp hck
      constructor
      · refine ⟨?_, ?_, ?_⟩
        · show ((st.friendships ++ [(⟨st.nextFriendshipId, r, t, "pending"⟩ : Friendship)]).map
            (fun f => f.id)).Nodup
          rw [List.map_append, List.nodup_append]
          refine ⟨hnd, by simp, ?_⟩
          intro x hx hx2
          obtain ⟨f, hf, rfl⟩ := List.mem_map.mp hx
          have hxb := hbd f hf
          simp at hx2
          omega
        · intro f hf
          rcases List.mem_append.mp hf with hf1 | hf1
          · have := hbd f hf1
            show f.id < st.nextFriendshipId + 1
            omega
          · rw [List.mem_singleton.mp hf1]
            show st.nextFriendshipId < st.nextFriendshipId + 1
            omega
        · intro f hf g hg hsp
          have hnew : ∀ x ∈ st.friendships,
              samePair x (⟨st.nextFriendshipId, r, t, "pending"⟩ : Friendship) → False := by
            intro x hx hxp
            have := hnomatch x hx
            rcases hxp with ⟨hx1, hx2⟩ | ⟨hx1, hx2⟩ <;> simp [hx1, hx2] at this
          rcases List.mem_append.mp hf with hf1 | hf1 <;>
            rcases List.mem_append.mp hg with hg1 | hg1
          · exact hun f hf1 g hg1 hsp
          · rw [List.mem_singleton.mp hg1] at hsp ⊢
            exact absurd hsp (fun hc => hnew f hf1 hc)
          · rw [List.mem_singleton.mp hf1] at hsp ⊢
            have hsp2 : samePair g (⟨st.nextFriendshipId, r, t, "pending"⟩ : Friendship) := by
              unfold samePair at hsp ⊢
              tauto
            exact absurd hsp2 (fun hc => hnew g hg1 hc)
          · rw [List.mem_singleton.mp hf1, List.mem_singleton.mp hg1]
      · obtain ⟨fd, hfd, hp, hs⟩ := hd
        exact ⟨fd, List.mem_append_left _ hfd, hp, hs⟩
  | respondById u rid act =>
    simp only [applyFriendOp]
    cases hres : respondToFriendRequestSvc st u rid act with
    | error e => exact ⟨⟨hnd, hbd, hun⟩, hd⟩
    | ok st2 =>
      obtain ⟨fr, hfr, hpend, rfl⟩ := respondToFriendRequest_ok st u rid act st2 hres
      have hfr2 : st.friendships.find? (fun f => f.id == rid && f.addresseeId == u)
          = some fr := hfr
      have hfrmem : fr ∈ st.friendships := List.mem_of_find?_eq_some hfr2
      have hfrpred := List.find?_some hfr2
      simp only [Bool.and_eq_true, beq_iff_eq] at hfrpred
      have hfrid : fr.id = rid := hfrpred.1
      refine ⟨updateFriendshipStatus_wf st rid _ ⟨hnd, hbd, hun⟩, ?_⟩
      refine updateFriendshipStatus_declined st a b rid _ hd ?_
      intro fd hfd hp hs hcontra
      have : fd = fr := List.inj_on_of_nodup_map hnd hfd hfrmem (by rw [hcontra, hfrid])
      rw [this, hpend] at hs
      exact absurd hs (by decide)
  | respondByUser u f act =>
    simp only [applyFriendOp]
    cases hres : respondToFriendRequestByUserIdSvc st u f act with
    | error e => exact ⟨⟨hnd, hbd, hun⟩, hd⟩
    | ok st2 =>
      obtain ⟨fr, hfr, rfl⟩ := respondToFriendRequestByUserId_ok st u f act st2 hres
      have hfr2 : st.friendships.find? (fun x =>
          x.requesterId == f && x.addresseeId == u && x.status == "pending")
          = some fr := hfr
      have hfrmem : fr ∈ st.friendships := List.mem_of_find?_eq_some hfr2
      have hfrpred := List.find?_some hfr2
      simp only [Bool.and_eq_true, beq_iff_eq] at hfrpred
      have hpend : fr.status = "pending" := hfrpred.2
      refine ⟨updateFriendshipStatus_wf st fr.id _ ⟨hnd, hbd, hun⟩, ?_⟩
      refine updateFriendshipStatus_declined st a b fr.id _ hd ?_
      intro fd hfd hp hs hcontra
      have : fd = fr := List.inj_on_of_nodup_map hnd hfd hfrmem (by rw [hcontra])
      rw [this, hpend] at hs
      exact absurd hs (by decide)
  | remove u f =>
    simp only [applyFriendOp]
    cases hres : removeFriendSvc st u f with
    | error e => exact ⟨⟨hnd, hbd, hun⟩, hd⟩
    | ok st2 =>
      obtain ⟨fr, hfr, rfl⟩ := removeFriend_ok st u f st2 hres
      have hfr2 : st.friendships.find? (fun x =>
          (x.requesterId == u || x.addresseeId == u) &&
          (x.requesterId == f || x.addresseeId == f) && x.status == "accepted")
          = some fr := hfr
      have hfrmem : fr ∈ st.friendships := List.mem_of_find?_eq_some hfr2
      have hfrpred := List.find?_some hfr2
      simp only [Bool.and_eq_true, beq_iff_eq] at hfrpred
      have hacc : fr.status = "accepted" := hfrpred.2
      constructor
      · refine ⟨?_, ?_, ?_⟩
        · show ((st.friendships.filter _).map (fun x => x.id)).Nodup
          exact ((List.filter_sublist _).map _).nodup hnd
        · intro g hg
          exact hbd g (List.mem_of_mem_filter hg)
        · intro g1 hg1 g2 hg2 hsp
          exact hun g1 (List.mem_of_mem_filter hg1) g2 (List.mem_of_mem_filter hg2) hsp
      · obtain ⟨fd, hfd, hp, hs⟩ := hd
        have hne : fd ≠ fr := by
          intro hc
          rw [hc, hacc] at hs
          exact absurd hs (by decide)
        have hidne : fd.id ≠ fr.id := by
          intro hc
          exact hne (List.inj_on_of_nodup_map hnd hfd hfrmem hc)
        refine ⟨fd, ?_, hp, hs⟩
        exact List.mem_filter.mpr ⟨hfd, by simp [hidne]⟩

/-- Claim C10: a `declined` friendship edge is absorbing — after any
sequence of the provided friendship operations (send, respond by id,
respond by user, remove) on any arguments, the edge is still present with
status `declined`, the table stays well-formed, and the two users are not
friends. -/
theorem declined_is_absorbing (a b : Nat) (ops : List FriendOp) (st : DB)
    (hwf : friendshipsWf st) (hd : declinedBetween st a b) :
    friendshipsWf (runFriendOps st ops) ∧
    declinedBetween (runFriendOps st ops) a b ∧
    areFriends (runFriendOps st ops) a b = false := by
  induction ops generalizing st with
  | nil => exact ⟨hwf, hd, wf_declined_not_friends st a b hwf hd⟩
  | cons op rest ih =>
    obtain ⟨hwf2, hd2⟩ := applyFriendOp_preserves st op a b hwf hd
    exact ih (applyFriendOp st op) hwf2 hd2

/-- Claim C10 witness: the absorbing property applied at a concrete declined
edge and a concrete operation sequence exercising every entry point. -/
theorem declined_is_absorbing_witness :
    friendshipsWf declinedSt ∧ declinedBetween declinedSt 1 2 ∧
    areFriends (runFriendOps declinedSt declinedOps) 1 2 = false :=
  ⟨by decide, by decide,
   (declined_is_absorbing 1 2 declinedOps declinedSt (by decide) (by decide)).2.2⟩

/-- Claim C8 witness: the equivalence applied at a concrete friendly pair. -/
theorem friends_equals_close_friends_witness :
    checkPhotoPermission friendsSt 2 1 "friends" none =
      checkPhotoPermission friendsSt 2 1 "close_friends" none ∧
    (checkPhotoPermission friendsSt 2 1 "friends" none).hasPermission =
      areFriends friendsSt 2 1 :=
  ⟨(friends_equals_close_friends friendsSt 2 1 none).1,
   (friends_equals_close_friends friendsSt 2 1 none).2 (by decide)⟩
